import Mathlib

/-!
Verification of the EdgeDeploy dashboard against its specification.

The definitions below are a shallow embedding of the repository's source:
the thin GitHub HTTP wrappers of src/services/githubService.ts and the
deployment trigger-and-poll state machine of src/App.tsx.  Network calls
are modelled by passing each call's outcome in explicitly (an
`Except String` value standing for "resolved with data" or "rejected with
an Error whose message is the string"); the React component state and the
two refs (`deploymentPollTimer`, `pollAttempts`) are modelled as one
explicit state record which the operations transform.
-/

namespace EdgeDeploy

/-- JavaScript `a || b` for a nullable string `a`: `null`, `undefined` and
the empty string are falsy and fall through to the default. -/
def jsOrS (o : Option String) (d : String) : String :=
  match o with
  | some s => if s = "" then d else s
  | none => d

/-- A `setX(prev => prev || d)` state update: the result is always a
present string. -/
def jsOrOpt (o : Option String) (d : String) : Option String :=
  some (jsOrS o d)

/-- The view of a parsed JSON body the service layer reads: its `message`
field (when it is a string, as read by the error paths) and the payload the
successful paths return. -/
structure JsonBody (α : Type) where
  message : Option String
  data : α

/-- The part of a fetch `Response` that src/services/githubService.ts
reads: the numeric status, whether the Content-Length header equals "0",
the outcome of `response.json()` (`Except.error` models a thrown parse
exception) and the raw body used by `response.text()`. -/
structure HttpResponse (α : Type) where
  status : Nat
  contentLengthZero : Bool
  json : Except String (JsonBody α)
  text : String

/-- `Response.ok` of the fetch API: status in the range 200-299. -/
def responseOk {α : Type} (r : HttpResponse α) : Bool :=
  200 ≤ r.status && r.status < 300

/-- src/services/githubService.ts `handleResponse`: throw the distinguished
unauthorized message on a 401, otherwise on a non-ok response throw
`errorData.message ||` a generic status message (a JSON parse failure of the
error body is not caught and propagates), return `null` on a
Content-Length of "0" or a 204, and the parsed body otherwise. -/
def handleResponse {α : Type} (r : HttpResponse α) : Except String (Option α) :=
  if responseOk r = false then
    if r.status = 401 then Except.error "Unauthorized: Invalid GitHub token."
    else
      match r.json with
      | Except.error e => Except.error e
      | Except.ok b =>
          Except.error (jsOrS b.message ("API request failed with status " ++ toString r.status))
  else if r.contentLengthZero = true ∨ r.status = 204 then Except.ok none
  else
    match r.json with
    | Except.error e => Except.error e
    | Except.ok b => Except.ok (some b.data)

/-- The fallback message of `triggerDeployment` for a non-ok response whose
body carries no message. -/
def triggerFallbackMessage : String :=
  "Failed to trigger workflow. Ensure the repo has a workflow with 'on: repository_dispatch'."

/-- src/services/githubService.ts `triggerDeployment`: bespoke error path
(it does not use `handleResponse`): on any non-ok response it throws
`errorData.message ||` the workflow-setup hint, where a JSON parse failure
is caught and replaced by the empty object (so the hint is used). -/
def triggerDeployment (r : HttpResponse Unit) : Except String Unit :=
  if responseOk r = false then
    Except.error
      (jsOrS (match r.json with | Except.ok b => b.message | Except.error _ => none)
        triggerFallbackMessage)
  else Except.ok ()

/-- src/services/githubService.ts `getJobLogs`: bespoke error path (it does
not use `handleResponse`): on any non-ok response it throws a status-only
message, otherwise it returns the raw text body. -/
def getJobLogs (r : HttpResponse Unit) : Except String String :=
  if responseOk r = false then
    Except.error ("Failed to fetch logs with status " ++ toString r.status)
  else Except.ok r.text

/-- A GitHub deployment record as read by `getLatestSuccessDeploymentUrl`:
only its creation time matters (modelled as the millisecond value of
`new Date(created_at).getTime()`); `id` keeps records distinguishable. -/
structure GithubDeployment where
  id : Nat
  created_at : Nat
deriving DecidableEq, Repr

/-- A GitHub deployment status record: its `state` and optional
`environment_url`. -/
structure GithubDeploymentStatus where
  state : String
  environment_url : Option String
deriving DecidableEq, Repr

/-- One insertion step of a stable descending-by-`created_at` sort.  A later
element passes every earlier element with a strictly smaller time and stops
before one with an equal or larger time, so the relative order of equal
times is preserved. -/
def insertDesc (d : GithubDeployment) : List GithubDeployment → List GithubDeployment
  | [] => [d]
  | x :: xs => if x.created_at < d.created_at then d :: x :: xs else x :: insertDesc d xs

/-- The stable `deployments.sort((a, b) => new Date(b.created_at).getTime()
- new Date(a.created_at).getTime())` of the source: most recently created
first, ties in original order. -/
def sortByCreatedDesc (l : List GithubDeployment) : List GithubDeployment :=
  l.foldl (fun acc d => insertDesc d acc) []

/-- The two network calls `getLatestSuccessDeploymentUrl` performs: the
deployments listing for the commit, and the statuses listing of whichever
deployment's `statuses_url` is fetched. -/
structure ResolverEnv where
  depResp : HttpResponse (List GithubDeployment)
  stResp : GithubDeployment → HttpResponse (List GithubDeploymentStatus)

/-- `successStatus?.environment_url || null`: absent and empty-string URLs
both collapse to null. -/
def jsUrlOrNull (o : Option String) : Option String :=
  match o with
  | some u => if u = "" then none else some u
  | none => none

/-- The `try` block of src/services/githubService.ts
`getLatestSuccessDeploymentUrl`, before its catch-all: return null on a
non-200 deployments response, on a null or empty deployments list, and on a
non-200 statuses response; otherwise pick the most recently created
deployment (stable sort, first element) and look for the first status with
state "success".  A thrown exception is an `Except.error`: a JSON parse
failure propagated by `handleResponse`, or the TypeError of calling
`statuses.find` when `handleResponse` returned null for the statuses
body. -/
def resolverTry (env : ResolverEnv) : Except String (Option String) :=
  if env.depResp.status ≠ 200 then Except.ok none
  else
    match handleResponse env.depResp with
    | Except.error e => Except.error e
    | Except.ok none => Except.ok none
    | Except.ok (some deployments) =>
      if deployments.length = 0 then Except.ok none
      else
        match sortByCreatedDesc deployments with
        | [] => Except.ok none
        | latestDeployment :: _ =>
          if (env.stResp latestDeployment).status ≠ 200 then Except.ok none
          else
            match handleResponse (env.stResp latestDeployment) with
            | Except.error e => Except.error e
            | Except.ok none => Except.error "TypeError: statuses is null"
            | Except.ok (some statuses) =>
              match statuses.find? (fun s => s.state == "success") with
              | none => Except.ok none
              | some successStatus => Except.ok (jsUrlOrNull successStatus.environment_url)

/-- src/services/githubService.ts `getLatestSuccessDeploymentUrl`: the try
block wrapped in its catch-all, which logs and returns null on any thrown
error so the UI is never broken. -/
def getLatestSuccessDeploymentUrl (env : ResolverEnv) : Option String :=
  match resolverTry env with
  | Except.ok v => v
  | Except.error _ => none

/-- src/types.ts run and job status values. -/
inductive RunStatus
  | queued
  | in_progress
  | completed
deriving DecidableEq, Repr

/-- src/types.ts run and job conclusion values (nullable at use sites). -/
inductive Conclusion
  | success
  | failure
  | neutral
  | cancelled
  | skipped
  | timed_out
  | action_required
deriving DecidableEq, Repr

/-- src/types.ts `DeploymentStatus` (the enum the App actually uses; it has
no timed-out member, and `SUCCESS` is never assigned by App.tsx). -/
inductive DeploymentStatus
  | IDLE
  | TRIGGERED
  | IN_PROGRESS
  | SUCCESS
  | FAILED
deriving DecidableEq, Repr

/-- The fields of a `GithubWorkflowRun` that App.tsx reads: `id`, `status`,
`conclusion` and `head_sha` (the head commit passed to the Live URL
Resolver). -/
structure WorkflowRun where
  id : Nat
  status : RunStatus
  conclusion : Option Conclusion
  head_sha : String
deriving DecidableEq, Repr

/-- The fields of a `GithubWorkflowJob` that App.tsx reads. -/
structure WorkflowJob where
  id : Nat
  status : RunStatus
deriving DecidableEq, Repr

/-- The shared App component state the poller touches.  React `useState`
values and the two refs are flattened into one record: `timerRef` is
whether `deploymentPollTimer.current` holds an interval handle,
`activeIntervals` counts interval timers alive in the browser (an interval
whose handle was dropped without `clearInterval` stays alive), and
`selectionReady` is the truthiness of `githubToken && owner && repo &&
selectedBranch`. -/
structure AppState where
  deploymentStatus : DeploymentStatus
  workflowRuns : List WorkflowRun
  deploymentLogs : Option String
  liveDeploymentUrl : Option String
  lastKnownRunId : Option Nat
  error : Option String
  pollAttempts : Nat
  timerRef : Bool
  activeIntervals : Nat
  selectionReady : Bool
deriving DecidableEq, Repr

/-- src/App.tsx `cleanupPolling`: clear the stored interval, if any. -/
def cleanupPolling (s : AppState) : AppState :=
  if s.timerRef then
    { s with timerRef := false, activeIntervals := s.activeIntervals - 1 }
  else s

/-- The network outcomes one execution of `pollDeploymentStatus` can
consume: the run listing, the job listing and the log fetch for the chosen
job, plus what the deferred `getLatestSuccessDeploymentUrl` call would
resolve to. -/
structure PollInput where
  runsResult : Except String (List WorkflowRun)
  jobsResult : Except String (List WorkflowJob)
  logsResult : Except String String
  resolverResult : Option String

/-- The externally visible effects of one execution: how many run-list
fetches it performed and the Live URL Resolver calls it scheduled, each as
(delay in ms, head commit sha). -/
structure PollEffects where
  runsFetches : Nat
  resolverCalls : List (Nat × String)
deriving DecidableEq, Repr

/-- The predicate of src/App.tsx line 538:
`lastKnownRunId === null || run.id > lastKnownRunId`. -/
def newerThanBaseline (baseline : Option Nat) (r : WorkflowRun) : Bool :=
  match baseline with
  | none => true
  | some b => b < r.id

/-- src/App.tsx line 538: `workflow_runs.find(run => lastKnownRunId === null
|| run.id > lastKnownRunId)` — the first run in array order satisfying the
predicate. -/
def relevantRun (baseline : Option Nat) (runs : List WorkflowRun) : Option WorkflowRun :=
  runs.find? (newerThanBaseline baseline)

/-- `jobs.find(job => job.status === 'in_progress') || jobs[0]`. -/
def buildJob (jobs : List WorkflowJob) : Option WorkflowJob :=
  match jobs.find? (fun j => j.status == RunStatus.in_progress) with
  | some j => some j
  | none => jobs.head?

/-- The continuation of `pollDeploymentStatus` from the moment its
`await getWorkflowRuns(...)` resolves (src/App.tsx lines 534-575).
`baseline` is the `lastKnownRunId` value captured by the closure when the
tick began; `s0` is the shared state at resolution time, which the
continuation mutates.  The deferred `setTimeout` of the success branch is
modelled by recording the (2000 ms, head_sha) resolver call among the
effects and applying its `setLiveDeploymentUrl(url)` directly. -/
def pollAfterRunsFetch (baseline : Option Nat) (inp : PollInput)
    (runs : List WorkflowRun) (s0 : AppState) : AppState × PollEffects :=
  let s := { s0 with workflowRuns := runs }
  match relevantRun baseline runs with
  | some r =>
    if r.status = RunStatus.in_progress ∨ r.status = RunStatus.queued then
      let s := { s with deploymentStatus := DeploymentStatus.IN_PROGRESS }
      match inp.jobsResult with
      | Except.ok jobs =>
        match buildJob jobs with
        | some _ =>
          match inp.logsResult with
          | Except.ok logs => ({ s with deploymentLogs := some logs }, ⟨1, []⟩)
          | Except.error _ =>
            ({ s with deploymentLogs := jsOrOpt s.deploymentLogs "Waiting for build logs..." },
              ⟨1, []⟩)
        | none =>
          ({ s with deploymentLogs :=
              jsOrOpt s.deploymentLogs "Workflow job is queued. Waiting for logs..." }, ⟨1, []⟩)
      | Except.error _ =>
        ({ s with deploymentLogs := jsOrOpt s.deploymentLogs "Waiting for build logs..." },
          ⟨1, []⟩)
    else
      let s1 := cleanupPolling s
      let s2 := { s1 with deploymentStatus := DeploymentStatus.IDLE,
                          deploymentLogs := none, lastKnownRunId := none }
      if r.conclusion = some Conclusion.success then
        ({ s2 with liveDeploymentUrl := inp.resolverResult }, ⟨1, [(2000, r.head_sha)]⟩)
      else (s2, ⟨1, []⟩)
  | none =>
    if 4 < s.pollAttempts then
      (cleanupPolling { s with deploymentStatus := DeploymentStatus.FAILED,
                               lastKnownRunId := none,
                               error := some "NO_WORKFLOW_DETECTED" }, ⟨1, []⟩)
    else (s, ⟨1, []⟩)

/-- src/App.tsx `pollDeploymentStatus`, one full sequential execution: the
initial guard, the attempt-counter increment, the 60-attempt timeout check
(which returns before any fetch), then the run-list fetch whose outcome is
handled by `pollAfterRunsFetch`, with the outer catch for a rejected
fetch. -/
def pollDeploymentStatus (inp : PollInput) (s0 : AppState) : AppState × PollEffects :=
  if s0.selectionReady = false ∨ s0.deploymentStatus = DeploymentStatus.IDLE then (s0, ⟨0, []⟩)
  else
    let s := { s0 with pollAttempts := s0.pollAttempts + 1 }
    if 60 < s.pollAttempts then
      let s1 := cleanupPolling s
      ({ s1 with deploymentStatus := DeploymentStatus.FAILED,
                 deploymentLogs :=
                   some (jsOrS s1.deploymentLogs ""
                     ++ "\n\nError: Deployment timed out after 5 minutes."),
                 error := some "Deployment timed out.",
                 lastKnownRunId := none }, ⟨0, []⟩)
    else
      match inp.runsResult with
      | Except.error e =>
        (cleanupPolling { s with error := some e,
                                 deploymentStatus := DeploymentStatus.FAILED,
                                 deploymentLogs := none,
                                 lastKnownRunId := none }, ⟨1, []⟩)
      | Except.ok runs => pollAfterRunsFetch s.lastKnownRunId inp runs s

/-- The interval timer driving the poll loop: each scheduled tick runs only
while an interval is registered (`clearInterval` stops the stream).  Returns
the final state and the total number of run-list fetches performed. -/
def driveTicks : List PollInput → AppState → AppState × Nat
  | [], s => (s, 0)
  | inp :: rest, s =>
    if s.timerRef then
      let step := pollDeploymentStatus inp s
      let cont := driveTicks rest step.1
      (cont.1, step.2.runsFetches + cont.2)
    else (s, 0)

/-- The deployment-related effects of src/App.tsx `handleRepoChange` (lines
399-432) on the modelled fields: reset the session status to idle and clear
the run list, the live URL and the logs.  It clears neither the poll timer
nor `pollAttempts`, `lastKnownRunId` or `error`. -/
def handleRepoChange (s : AppState) : AppState :=
  { s with deploymentStatus := DeploymentStatus.IDLE,
           workflowRuns := [],
           liveDeploymentUrl := none,
           deploymentLogs := none }

/-- The network outcomes one execution of `handleDeploy` consumes: the
baseline run listing and the dispatch POST. -/
structure DeployInput where
  runsResult : Except String (List WorkflowRun)
  dispatchResult : Except String Unit

/-- How many Dispatcher (`triggerDeployment`) calls one `handleDeploy`
execution made. -/
structure DeployEffects where
  dispatchCalls : Nat
deriving DecidableEq, Repr

/-- The synchronous prefix of src/App.tsx `handleDeploy` (lines 617-622),
run before its first `await` once the guard has passed: cancel whatever
interval handle is currently stored, reset error, status, logs and the
attempt counter.  The new interval is *not* registered here — registration
happens only in the continuation, after both awaits (line 636). -/
def handleDeployStart (s0 : AppState) : AppState :=
  { cleanupPolling s0 with error := none,
                           deploymentStatus := DeploymentStatus.TRIGGERED,
                           deploymentLogs := some "Triggering deployment workflow...",
                           pollAttempts := 0 }

/-- The continuation of src/App.tsx `handleDeploy` from the resolution of
its `await getWorkflowRuns` (lines 626-641), operating on the shared state
at resumption time: record the baseline run id from the newest listed run,
dispatch (`await triggerDeployment`), and on success schedule the 2 s first
poll and register the new interval, storing its handle in the ref —
overwriting, not clearing, whatever handle the ref held at that moment; the
catch covers a rejected listing or dispatch. -/
def handleDeployResume (inp : DeployInput) (s0 : AppState) : AppState × DeployEffects :=
  match inp.runsResult with
  | Except.error e =>
    ({ s0 with error := some e, deploymentStatus := DeploymentStatus.FAILED,
               lastKnownRunId := none }, ⟨0⟩)
  | Except.ok runs =>
    let s := { s0 with lastKnownRunId := runs.head?.map (fun r : WorkflowRun => r.id) }
    match inp.dispatchResult with
    | Except.error e =>
      ({ s with error := some e, deploymentStatus := DeploymentStatus.FAILED,
                lastKnownRunId := none }, ⟨1⟩)
    | Except.ok _ =>
      ({ s with timerRef := true, activeIntervals := s.activeIntervals + 1 }, ⟨1⟩)

/-- src/App.tsx `handleDeploy` as one sequential execution: guard, then the
synchronous prefix and the continuation back to back — valid when no other
invocation interleaves with the awaits. -/
def handleDeploy (inp : DeployInput) (s0 : AppState) : AppState × DeployEffects :=
  if s0.selectionReady = false then (s0, ⟨0⟩)
  else handleDeployResume inp (handleDeployStart s0)

/-! Theorems. -/

/-- The run list of the spec's worked example: ids 105, 102, 98 returned in
the API's newest-first order, against a baseline of 100. -/
def run105 : WorkflowRun := ⟨105, RunStatus.in_progress, none, "sha105"⟩

def run102 : WorkflowRun := ⟨102, RunStatus.in_progress, none, "sha102"⟩

def run98 : WorkflowRun := ⟨98, RunStatus.completed, some Conclusion.success, "sha98"⟩

/-- C1 is false as stated: with baseline 100 and the list [105, 102, 98] the
code selects the run with id 105 (the first array element whose id exceeds
the baseline), not 102 as the claim requires; and the selection is not
independent of array order, since the reversed list yields 102. -/
theorem C1_counterexample :
    (relevantRun (some 100) [run105, run102, run98]).map (fun r => r.id) = some 105
    ∧ some (105 : Nat) ≠ some 102
    ∧ (relevantRun (some 100) [run98, run102, run105]).map (fun r => r.id) = some 102 := by
  refine ⟨rfl, by decide, rfl⟩

/-- C1 amended: the relevant run is the first run in array order whose id
strictly exceeds the baseline (for a none baseline, the first array element).
Order independence fails, but under the API's newest-first ordering
(strictly descending ids) the selected run is the largest-id — i.e. newest —
run strictly newer than the baseline, not the smallest; and when no run
exceeds the baseline, none is selected. -/
theorem C1_amended_relevantRun :
    (∀ runs : List WorkflowRun, relevantRun none runs = runs.head?)
    ∧ (∀ (b : Nat) (runs : List WorkflowRun),
        List.Pairwise (fun x y : WorkflowRun => y.id < x.id) runs →
        ∀ r0 : WorkflowRun, relevantRun (some b) runs = some r0 →
          b < r0.id ∧ r0 ∈ runs ∧ ∀ r ∈ runs, b < r.id → r.id ≤ r0.id)
    ∧ (∀ (b : Nat) (runs : List WorkflowRun),
        relevantRun (some b) runs = none → ∀ r ∈ runs, r.id ≤ b) := by
  refine ⟨?_, ?_, ?_⟩
  · intro runs
    cases runs with
    | nil => rfl
    | cons a l => rw [relevantRun, List.find?_cons_of_pos _ rfl]; rfl
  · intro b runs
    induction runs with
    | nil => intro _ r0 h; simp [relevantRun] at h
    | cons a l ih =>
      intro hpw r0 h
      have hpw2 := List.pairwise_cons.mp hpw
      by_cases hb : b < a.id
      · rw [relevantRun,
          List.find?_cons_of_pos _ (by simp [newerThanBaseline, hb])] at h
        cases h
        refine ⟨hb, List.mem_cons_self a l, ?_⟩
        intro r hr _
        rcases List.mem_cons.mp hr with h1 | h1
        · exact h1 ▸ Nat.le_refl _
        · exact Nat.le_of_lt (hpw2.1 r h1)
      · rw [relevantRun,
          List.find?_cons_of_neg _ (by simp [newerThanBaseline, hb])] at h
        obtain ⟨h1, h2, h3⟩ := ih hpw2.2 r0 h
        refine ⟨h1, List.mem_cons_of_mem a h2, ?_⟩
        intro r hr hbr
        rcases List.mem_cons.mp hr with h4 | h4
        · exact absurd (h4 ▸ hbr) hb
        · exact h3 r h4 hbr
  · intro b runs h r hr
    rw [relevantRun, List.find?_eq_none] at h
    have := h r hr
    simp [newerThanBaseline] at this
    omega

/-- Witness for C1's amended theorem at the worked example. -/
theorem C1_witness :
    100 < run105.id ∧ run105 ∈ [run105, run102, run98]
    ∧ ∀ r ∈ [run105, run102, run98], 100 < r.id → r.id ≤ run105.id :=
  C1_amended_relevantRun.2.1 100 [run105, run102, run98] (by decide) run105 rfl

/-- Clearing the interval always leaves no stored timer. -/
lemma cleanupPolling_timerRef (s : AppState) : (cleanupPolling s).timerRef = false := by
  unfold cleanupPolling; split <;> simp_all

lemma cleanupPolling_deploymentStatus (s : AppState) :
    (cleanupPolling s).deploymentStatus = s.deploymentStatus := by
  unfold cleanupPolling; split <;> rfl

lemma cleanupPolling_error (s : AppState) : (cleanupPolling s).error = s.error := by
  unfold cleanupPolling; split <;> rfl

lemma cleanupPolling_pollAttempts (s : AppState) :
    (cleanupPolling s).pollAttempts = s.pollAttempts := by
  unfold cleanupPolling; split <;> rfl

lemma cleanupPolling_selectionReady (s : AppState) :
    (cleanupPolling s).selectionReady = s.selectionReady := by
  unfold cleanupPolling; split <;> rfl

/-- Once the interval is cleared, no scheduled tick runs and no further
run-list fetch occurs. -/
lemma driveTicks_inactive (l : List PollInput) (s : AppState) (h : s.timerRef = false) :
    driveTicks l s = (s, 0) := by
  cases l with
  | nil => rfl
  | cons a t => simp [driveTicks, h]

/-- One scheduled tick while the interval is registered. -/
lemma driveTicks_cons_active (inp : PollInput) (rest : List PollInput) (s : AppState)
    (h : s.timerRef = true) :
    driveTicks (inp :: rest) s
      = ((driveTicks rest (pollDeploymentStatus inp s).1).1,
         (pollDeploymentStatus inp s).2.runsFetches
           + (driveTicks rest (pollDeploymentStatus inp s).1).2) := by
  simp [driveTicks, h]

/-- The state after a stalled poll tick: attempt counter at `n`, displayed
run list replaced, everything else untouched. -/
def stallState (s : AppState) (n : Nat) (rs : List WorkflowRun) : AppState :=
  { s with pollAttempts := n, workflowRuns := rs }

/-- A stalled tick (run-list fetched, no run newer than the baseline, at
most 4 attempts so far): only the attempt counter and the displayed run
list change. -/
lemma pollTick_stall (inp : PollInput) (s : AppState) (rs : List WorkflowRun)
    (hready : s.selectionReady = true)
    (hst : ¬ s.deploymentStatus = DeploymentStatus.IDLE)
    (hat : s.pollAttempts + 1 ≤ 4)
    (hruns : inp.runsResult = Except.ok rs)
    (hrel : relevantRun s.lastKnownRunId rs = none) :
    pollDeploymentStatus inp s = (stallState s (s.pollAttempts + 1) rs, ⟨1, []⟩) := by
  have h60 : ¬ (60 < s.pollAttempts + 1) := by omega
  have h4 : ¬ (4 < s.pollAttempts + 1) := by omega
  simp [pollDeploymentStatus, pollAfterRunsFetch, stallState, hready, hst, hruns, hrel, h60, h4]

/-- The fifth consecutive stalled tick (attempt counter passes 4): the
fetch has already happened, then the session fails with the distinguished
no-workflow condition and the interval is cleared. -/
lemma pollTick_noWorkflow (inp : PollInput) (s : AppState) (rs : List WorkflowRun)
    (hready : s.selectionReady = true)
    (hst : ¬ s.deploymentStatus = DeploymentStatus.IDLE)
    (h4 : 4 < s.pollAttempts + 1) (h60 : s.pollAttempts + 1 ≤ 60)
    (hruns : inp.runsResult = Except.ok rs)
    (hrel : relevantRun s.lastKnownRunId rs = none) :
    pollDeploymentStatus inp s
      = (cleanupPolling { s with pollAttempts := s.pollAttempts + 1, workflowRuns := rs,
                                 deploymentStatus := DeploymentStatus.FAILED,
                                 lastKnownRunId := none,
                                 error := some "NO_WORKFLOW_DETECTED" }, ⟨1, []⟩) := by
  have h60n : ¬ (60 < s.pollAttempts + 1) := by omega
  simp [pollDeploymentStatus, pollAfterRunsFetch, hready, hst, hruns, hrel, h60n, h4]

/-- The concrete post-trigger state of the C2 scenario: freshly triggered
session, baseline run id 100, one live interval. -/
def c2Base : AppState :=
  { deploymentStatus := DeploymentStatus.TRIGGERED
    workflowRuns := []
    deploymentLogs := some "Triggering deployment workflow..."
    liveDeploymentUrl := none
    lastKnownRunId := some 100
    error := none
    pollAttempts := 0
    timerRef := true
    activeIntervals := 1
    selectionReady := true }

/-- A poll tick outcome in which the run listing succeeds but contains no
run newer than baseline 100. -/
def c2StallInput : PollInput :=
  { runsResult := Except.ok [⟨90, RunStatus.completed, some Conclusion.failure, "oldsha"⟩]
    jobsResult := Except.error "unused"
    logsResult := Except.error "unused"
    resolverResult := none }

/-- C2 is false as stated: after 4 consecutive polls finding no run newer
than the baseline the session has not failed (it is still TRIGGERED) and
the timer is still running; and a 5th run-list fetch does occur — five
stalled ticks perform five fetches. -/
theorem C2_counterexample :
    (driveTicks [c2StallInput, c2StallInput, c2StallInput, c2StallInput]
        c2Base).1.deploymentStatus = DeploymentStatus.TRIGGERED
    ∧ (driveTicks [c2StallInput, c2StallInput, c2StallInput, c2StallInput]
        c2Base).1.timerRef = true
    ∧ (driveTicks [c2StallInput, c2StallInput, c2StallInput, c2StallInput, c2StallInput]
        c2Base).2 = 5 := by
  refine ⟨rfl, rfl, rfl⟩

/-- C2 amended: the no-workflow check `pollAttempts.current > 4` is
evaluated after the tick's fetch, so the transition happens on the 5th
consecutive empty poll, after a 5th run-list fetch.  From a freshly
triggered session (attempt counter 0, interval live), five consecutive
polls whose run lists contain no run newer than the baseline put the
session in FAILED with the distinguished NO_WORKFLOW_DETECTED error and
clear the interval; exactly 5 fetches occur in total, however many further
ticks are scheduled (no 6th fetch). -/
theorem C2_amended_noWorkflow (s : AppState)
    (i1 i2 i3 i4 i5 : PollInput) (rest : List PollInput)
    (rs1 rs2 rs3 rs4 rs5 : List WorkflowRun)
    (hready : s.selectionReady = true)
    (hst : ¬ s.deploymentStatus = DeploymentStatus.IDLE)
    (h0 : s.pollAttempts = 0)
    (htimer : s.timerRef = true)
    (h1 : i1.runsResult = Except.ok rs1) (hrel1 : relevantRun s.lastKnownRunId rs1 = none)
    (h2 : i2.runsResult = Except.ok rs2) (hrel2 : relevantRun s.lastKnownRunId rs2 = none)
    (h3 : i3.runsResult = Except.ok rs3) (hrel3 : relevantRun s.lastKnownRunId rs3 = none)
    (h4 : i4.runsResult = Except.ok rs4) (hrel4 : relevantRun s.lastKnownRunId rs4 = none)
    (h5 : i5.runsResult = Except.ok rs5) (hrel5 : relevantRun s.lastKnownRunId rs5 = none) :
    (driveTicks ([i1, i2, i3, i4, i5] ++ rest) s).2 = 5
    ∧ (driveTicks ([i1, i2, i3, i4, i5] ++ rest) s).1.deploymentStatus = DeploymentStatus.FAILED
    ∧ (driveTicks ([i1, i2, i3, i4, i5] ++ rest) s).1.error = some "NO_WORKFLOW_DETECTED"
    ∧ (driveTicks ([i1, i2, i3, i4, i5] ++ rest) s).1.timerRef = false := by
  have e1 : pollDeploymentStatus i1 s = (stallState s (s.pollAttempts + 1) rs1, ⟨1, []⟩) :=
    pollTick_stall i1 s rs1 hready hst (by omega) h1 hrel1
  have e2 : pollDeploymentStatus i2 (stallState s (s.pollAttempts + 1) rs1)
      = (stallState s (s.pollAttempts + 1 + 1) rs2, ⟨1, []⟩) :=
    pollTick_stall i2 _ rs2 hready hst (by show s.pollAttempts + 1 + 1 ≤ 4; omega) h2 hrel2
  have e3 : pollDeploymentStatus i3 (stallState s (s.pollAttempts + 1 + 1) rs2)
      = (stallState s (s.pollAttempts + 1 + 1 + 1) rs3, ⟨1, []⟩) :=
    pollTick_stall i3 _ rs3 hready hst (by show s.pollAttempts + 1 + 1 + 1 ≤ 4; omega) h3 hrel3
  have e4 : pollDeploymentStatus i4 (stallState s (s.pollAttempts + 1 + 1 + 1) rs3)
      = (stallState s (s.pollAttempts + 1 + 1 + 1 + 1) rs4, ⟨1, []⟩) :=
    pollTick_stall i4 _ rs4 hready hst (by show s.pollAttempts + 1 + 1 + 1 + 1 ≤ 4; omega)
      h4 hrel4
  have e5 : pollDeploymentStatus i5 (stallState s (s.pollAttempts + 1 + 1 + 1 + 1) rs4)
      = (cleanupPolling { s with pollAttempts := s.pollAttempts + 1 + 1 + 1 + 1 + 1,
                                 workflowRuns := rs5,
                                 deploymentStatus := DeploymentStatus.FAILED,
                                 lastKnownRunId := none,
                                 error := some "NO_WORKFLOW_DETECTED" }, ⟨1, []⟩) :=
    pollTick_noWorkflow i5 _ rs5 hready hst
      (by show 4 < s.pollAttempts + 1 + 1 + 1 + 1 + 1; omega)
      (by show s.pollAttempts + 1 + 1 + 1 + 1 + 1 ≤ 60; omega) h5 hrel5
  have d5 : driveTicks (i5 :: rest) (stallState s (s.pollAttempts + 1 + 1 + 1 + 1) rs4)
      = (cleanupPolling { s with pollAttempts := s.pollAttempts + 1 + 1 + 1 + 1 + 1,
                                 workflowRuns := rs5,
                                 deploymentStatus := DeploymentStatus.FAILED,
                                 lastKnownRunId := none,
                                 error := some "NO_WORKFLOW_DETECTED" }, 1) := by
    rw [driveTicks_cons_active i5 rest
      (stallState s (s.pollAttempts + 1 + 1 + 1 + 1) rs4) htimer, e5]
    dsimp only
    rw [driveTicks_inactive rest _ (cleanupPolling_timerRef _)]
    rfl
  have d4 : driveTicks (i4 :: i5 :: rest) (stallState s (s.pollAttempts + 1 + 1 + 1) rs3)
      = (cleanupPolling { s with pollAttempts := s.pollAttempts + 1 + 1 + 1 + 1 + 1,
                                 workflowRuns := rs5,
                                 deploymentStatus := DeploymentStatus.FAILED,
                                 lastKnownRunId := none,
                                 error := some "NO_WORKFLOW_DETECTED" }, 2) := by
    rw [driveTicks_cons_active i4 (i5 :: rest)
      (stallState s (s.pollAttempts + 1 + 1 + 1) rs3) htimer, e4]
    dsimp only
    rw [d5]
    rfl
  have d3 : driveTicks (i3 :: i4 :: i5 :: rest) (stallState s (s.pollAttempts + 1 + 1) rs2)
      = (cleanupPolling { s with pollAttempts := s.pollAttempts + 1 + 1 + 1 + 1 + 1,
                                 workflowRuns := rs5,
                                 deploymentStatus := DeploymentStatus.FAILED,
                                 lastKnownRunId := none,
                                 error := some "NO_WORKFLOW_DETECTED" }, 3) := by
    rw [driveTicks_cons_active i3 (i4 :: i5 :: rest)
      (stallState s (s.pollAttempts + 1 + 1) rs2) htimer, e3]
    dsimp only
    rw [d4]
    rfl
  have d2 : driveTicks (i2 :: i3 :: i4 :: i5 :: rest) (stallState s (s.pollAttempts + 1) rs1)
      = (cleanupPolling { s with pollAttempts := s.pollAttempts + 1 + 1 + 1 + 1 + 1,
                                 workflowRuns := rs5,
                                 deploymentStatus := DeploymentStatus.FAILED,
                                 lastKnownRunId := none,
                                 error := some "NO_WORKFLOW_DETECTED" }, 4) := by
    rw [driveTicks_cons_active i2 (i3 :: i4 :: i5 :: rest)
      (stallState s (s.pollAttempts + 1) rs1) htimer, e2]
    dsimp only
    rw [d3]
    rfl
  have d1 : driveTicks (i1 :: i2 :: i3 :: i4 :: i5 :: rest) s
      = (cleanupPolling { s with pollAttempts := s.pollAttempts + 1 + 1 + 1 + 1 + 1,
                                 workflowRuns := rs5,
                                 deploymentStatus := DeploymentStatus.FAILED,
                                 lastKnownRunId := none,
                                 error := some "NO_WORKFLOW_DETECTED" }, 5) := by
    rw [driveTicks_cons_active i1 (i2 :: i3 :: i4 :: i5 :: rest) s htimer, e1]
    dsimp only
    rw [d2]
    rfl
  have hdrive : driveTicks ([i1, i2, i3, i4, i5] ++ rest) s
      = (cleanupPolling { s with pollAttempts := s.pollAttempts + 1 + 1 + 1 + 1 + 1,
                                 workflowRuns := rs5,
                                 deploymentStatus := DeploymentStatus.FAILED,
                                 lastKnownRunId := none,
                                 error := some "NO_WORKFLOW_DETECTED" }, 5) := d1
  rw [hdrive]
  exact ⟨rfl, by rw [cleanupPolling_deploymentStatus], by rw [cleanupPolling_error],
    cleanupPolling_timerRef _⟩

/-- Witness for C2's amended theorem at the concrete scenario. -/
theorem C2_witness :
    (driveTicks ([c2StallInput, c2StallInput, c2StallInput, c2StallInput, c2StallInput] ++ [])
        c2Base).2 = 5
    ∧ (driveTicks ([c2StallInput, c2StallInput, c2StallInput, c2StallInput, c2StallInput] ++ [])
        c2Base).1.deploymentStatus = DeploymentStatus.FAILED
    ∧ (driveTicks ([c2StallInput, c2StallInput, c2StallInput, c2StallInput, c2StallInput] ++ [])
        c2Base).1.error = some "NO_WORKFLOW_DETECTED"
    ∧ (driveTicks ([c2StallInput, c2StallInput, c2StallInput, c2StallInput, c2StallInput] ++ [])
        c2Base).1.timerRef = false :=
  C2_amended_noWorkflow c2Base c2StallInput c2StallInput c2StallInput c2StallInput c2StallInput
    [] _ _ _ _ _ rfl (by decide) rfl rfl
    rfl rfl rfl rfl rfl rfl rfl rfl rfl rfl

/-- C3: once the attempt counter exceeds the hard ceiling of 60 while the
session is live (status not IDLE, i.e. still triggered or in progress), the
tick ends the session before fetching anything.  The code encodes the
spec's TimedOut terminal state as `DeploymentStatus.FAILED` together with
the surfaced error "Deployment timed out." and a log line appended; the
interval is cleared, this tick performs no run-list fetch, and no later
scheduled tick fetches either. -/
theorem C3_timeout (s : AppState) (inp : PollInput)
    (hready : s.selectionReady = true)
    (hst : ¬ s.deploymentStatus = DeploymentStatus.IDLE)
    (hat : 60 ≤ s.pollAttempts) :
    (pollDeploymentStatus inp s).1.deploymentStatus = DeploymentStatus.FAILED
    ∧ (pollDeploymentStatus inp s).1.error = some "Deployment timed out."
    ∧ (pollDeploymentStatus inp s).1.deploymentLogs
        = some (jsOrS s.deploymentLogs "" ++ "\n\nError: Deployment timed out after 5 minutes.")
    ∧ (pollDeploymentStatus inp s).1.timerRef = false
    ∧ (pollDeploymentStatus inp s).1.lastKnownRunId = none
    ∧ (pollDeploymentStatus inp s).2.runsFetches = 0
    ∧ ∀ rest, driveTicks rest (pollDeploymentStatus inp s).1
        = ((pollDeploymentStatus inp s).1, 0) := by
  have h60 : 60 < s.pollAttempts + 1 := by omega
  have he : pollDeploymentStatus inp s
      = ({ cleanupPolling { s with pollAttempts := s.pollAttempts + 1 } with
             deploymentStatus := DeploymentStatus.FAILED,
             deploymentLogs :=
               some (jsOrS (cleanupPolling { s with
                 pollAttempts := s.pollAttempts + 1 }).deploymentLogs ""
                 ++ "\n\nError: Deployment timed out after 5 minutes."),
             error := some "Deployment timed out.",
             lastKnownRunId := none }, ⟨0, []⟩) := by
    simp [pollDeploymentStatus, hready, hst, h60]
  rw [he]
  have hlog : (cleanupPolling { s with pollAttempts := s.pollAttempts + 1 }).deploymentLogs
      = s.deploymentLogs := by
    unfold cleanupPolling; split <;> rfl
  refine ⟨rfl, rfl, by rw [hlog], ?_, rfl, rfl, ?_⟩
  · show (cleanupPolling { s with pollAttempts := s.pollAttempts + 1 }).timerRef = false
    exact cleanupPolling_timerRef _
  · intro rest
    exact driveTicks_inactive rest _ (cleanupPolling_timerRef _)

/-- The concrete 61st-tick scenario: a session still in progress with 60
attempts already made. -/
def c3State : AppState :=
  { deploymentStatus := DeploymentStatus.IN_PROGRESS
    workflowRuns := []
    deploymentLogs := some "build log so far"
    liveDeploymentUrl := none
    lastKnownRunId := some 100
    error := none
    pollAttempts := 60
    timerRef := true
    activeIntervals := 1
    selectionReady := true }

/-- Witness for C3 at the concrete scenario. -/
theorem C3_witness :
    (pollDeploymentStatus c2StallInput c3State).1.deploymentStatus = DeploymentStatus.FAILED
    ∧ (pollDeploymentStatus c2StallInput c3State).1.error = some "Deployment timed out."
    ∧ (pollDeploymentStatus c2StallInput c3State).1.deploymentLogs
        = some (jsOrS c3State.deploymentLogs ""
            ++ "\n\nError: Deployment timed out after 5 minutes.")
    ∧ (pollDeploymentStatus c2StallInput c3State).1.timerRef = false
    ∧ (pollDeploymentStatus c2StallInput c3State).1.lastKnownRunId = none
    ∧ (pollDeploymentStatus c2StallInput c3State).2.runsFetches = 0
    ∧ ∀ rest, driveTicks rest (pollDeploymentStatus c2StallInput c3State).1
        = ((pollDeploymentStatus c2StallInput c3State).1, 0) :=
  C3_timeout c3State c2StallInput rfl (by decide) (by decide)

lemma cleanupPolling_liveDeploymentUrl (s : AppState) :
    (cleanupPolling s).liveDeploymentUrl = s.liveDeploymentUrl := by
  unfold cleanupPolling; split <;> rfl

/-- The C4 scenario: a triggered session at attempt counter 2, baseline
100, where the poll finds the new run already completed successfully. -/
def c4State : AppState :=
  { deploymentStatus := DeploymentStatus.TRIGGERED
    workflowRuns := []
    deploymentLogs := some "Triggering deployment workflow..."
    liveDeploymentUrl := none
    lastKnownRunId := some 100
    error := none
    pollAttempts := 2
    timerRef := true
    activeIntervals := 1
    selectionReady := true }

def c4Run : WorkflowRun := ⟨101, RunStatus.completed, some Conclusion.success, "shaC4"⟩

def c4Input : PollInput :=
  { runsResult := Except.ok [c4Run]
    jobsResult := Except.error "unused"
    logsResult := Except.error "unused"
    resolverResult := some "https://example.github.io/app/" }

/-- C4 is false as stated: on the tick that sees the completed run the
attempt counter is not cleared — it is incremented to 3 and left there
(only the next `handleDeploy` resets it to 0). -/
theorem C4_counterexample :
    (pollDeploymentStatus c4Input c4State).1.pollAttempts = 3
    ∧ ¬ (pollDeploymentStatus c4Input c4State).1.pollAttempts = 0 := by
  refine ⟨rfl, by decide⟩

/-- C4 amended: when the relevant run has status completed, the poller
stops the timer, clears the log snapshot and the baseline run id, and
transitions the session status back to Idle; the attempt counter is not
cleared (it keeps the incremented value until the next trigger resets it).
If additionally the conclusion is success, the Live URL Resolver is called
exactly once, scheduled after the fixed 2000 ms settle delay, with that
run's head commit sha, and the resulting possibly-null URL is stored;
otherwise no resolver call is scheduled and the stored URL is untouched. -/
theorem C4_amended_completed (s : AppState) (inp : PollInput)
    (runs : List WorkflowRun) (r : WorkflowRun)
    (hready : s.selectionReady = true)
    (hst : ¬ s.deploymentStatus = DeploymentStatus.IDLE)
    (hat : s.pollAttempts < 60)
    (hruns : inp.runsResult = Except.ok runs)
    (hrel : relevantRun s.lastKnownRunId runs = some r)
    (hcomp : r.status = RunStatus.completed) :
    (pollDeploymentStatus inp s).1.timerRef = false
    ∧ (pollDeploymentStatus inp s).1.deploymentStatus = DeploymentStatus.IDLE
    ∧ (pollDeploymentStatus inp s).1.deploymentLogs = none
    ∧ (pollDeploymentStatus inp s).1.lastKnownRunId = none
    ∧ (pollDeploymentStatus inp s).1.pollAttempts = s.pollAttempts + 1
    ∧ (r.conclusion = some Conclusion.success →
        (pollDeploymentStatus inp s).2.resolverCalls = [(2000, r.head_sha)]
        ∧ (pollDeploymentStatus inp s).1.liveDeploymentUrl = inp.resolverResult)
    ∧ (¬ r.conclusion = some Conclusion.success →
        (pollDeploymentStatus inp s).2.resolverCalls = []
        ∧ (pollDeploymentStatus inp s).1.liveDeploymentUrl = s.liveDeploymentUrl) := by
  have h60 : ¬ (60 < s.pollAttempts + 1) := by omega
  have hnotip : ¬ (r.status = RunStatus.in_progress ∨ r.status = RunStatus.queued) := by
    simp [hcomp]
  by_cases hc : r.conclusion = some Conclusion.success
  · have he : pollDeploymentStatus inp s
        = ({ cleanupPolling { s with pollAttempts := s.pollAttempts + 1,
                                     workflowRuns := runs } with
               deploymentStatus := DeploymentStatus.IDLE,
               deploymentLogs := none,
               lastKnownRunId := none,
               liveDeploymentUrl := inp.resolverResult }, ⟨1, [(2000, r.head_sha)]⟩) := by
      simp [pollDeploymentStatus, pollAfterRunsFetch, hready, hst, h60, hruns, hrel, hnotip, hc]
    rw [he]
    refine ⟨cleanupPolling_timerRef _, rfl, rfl, rfl, ?_, fun _ => ⟨rfl, rfl⟩,
      fun hn => absurd hc hn⟩
    exact cleanupPolling_pollAttempts _
  · have he : pollDeploymentStatus inp s
        = ({ cleanupPolling { s with pollAttempts := s.pollAttempts + 1,
                                     workflowRuns := runs } with
               deploymentStatus := DeploymentStatus.IDLE,
               deploymentLogs := none,
               lastKnownRunId := none }, ⟨1, []⟩) := by
      simp [pollDeploymentStatus, pollAfterRunsFetch, hready, hst, h60, hruns, hrel, hnotip, hc]
    rw [he]
    refine ⟨cleanupPolling_timerRef _, rfl, rfl, rfl, ?_, fun hy => absurd hy hc,
      fun _ => ⟨rfl, ?_⟩⟩
    · exact cleanupPolling_pollAttempts _
    · exact cleanupPolling_liveDeploymentUrl _

/-- Witness for C4's amended theorem at the concrete scenario. -/
theorem C4_witness :
    (pollDeploymentStatus c4Input c4State).1.timerRef = false
    ∧ (pollDeploymentStatus c4Input c4State).1.deploymentStatus = DeploymentStatus.IDLE
    ∧ (pollDeploymentStatus c4Input c4State).1.deploymentLogs = none
    ∧ (pollDeploymentStatus c4Input c4State).1.lastKnownRunId = none
    ∧ (pollDeploymentStatus c4Input c4State).1.pollAttempts = c4State.pollAttempts + 1
    ∧ (c4Run.conclusion = some Conclusion.success →
        (pollDeploymentStatus c4Input c4State).2.resolverCalls = [(2000, c4Run.head_sha)]
        ∧ (pollDeploymentStatus c4Input c4State).1.liveDeploymentUrl = c4Input.resolverResult)
    ∧ (¬ c4Run.conclusion = some Conclusion.success →
        (pollDeploymentStatus c4Input c4State).2.resolverCalls = []
        ∧ (pollDeploymentStatus c4Input c4State).1.liveDeploymentUrl
            = c4State.liveDeploymentUrl) :=
  C4_amended_completed c4State c4Input [c4Run] c4Run rfl (by decide) (by decide) rfl rfl rfl

/-- The C5 scenario: a freshly triggered session (baseline 100) whose poll
tick has passed its initial guard and incremented the attempt counter, with
the run-list fetch still in flight. -/
def c5Polling : AppState :=
  { deploymentStatus := DeploymentStatus.TRIGGERED
    workflowRuns := []
    deploymentLogs := some "Triggering deployment workflow..."
    liveDeploymentUrl := none
    lastKnownRunId := some 100
    error := none
    pollAttempts := 0
    timerRef := true
    activeIntervals := 1
    selectionReady := true }

def c5StaleRun : WorkflowRun := ⟨101, RunStatus.in_progress, none, "shaC5"⟩

def c5Input : PollInput :=
  { runsResult := Except.ok [c5StaleRun]
    jobsResult := Except.error "network error"
    logsResult := Except.error "network error"
    resolverResult := none }

/-- The shared state at the moment the C5 tick's fetch is dispatched: the
guard at the top of `pollDeploymentStatus` has run and the attempt counter
is incremented; nothing else has happened yet. -/
def c5Mid : AppState := { c5Polling with pollAttempts := c5Polling.pollAttempts + 1 }

/-- The shared state after the user switches repository while that fetch is
in flight: `handleRepoChange` resets the session to Idle and clears the
displayed runs, logs and URL. -/
def c5AfterRepoChange : AppState := handleRepoChange c5Mid

/-- The shared state once the stale fetch resolves: the continuation of the
old tick (with its captured baseline of 100) runs against the reset
state. -/
def c5Resolved : AppState :=
  (pollAfterRunsFetch (some 100) c5Input [c5StaleRun] c5AfterRepoChange).1

/-- C5 evidence: the only staleness check in `pollDeploymentStatus` is the
guard at its top, evaluated before the `await`; nothing is re-checked when
the fetch resolves.  A run-list response from the cancelled session
therefore overwrites the fresh state: the cleared run list is replaced by
the stale one and the Idle status is driven back to IN_PROGRESS.  This
contradicts the claim (and spec section 5's requirement) that a cancelled
session's in-flight fetch causes zero observable mutation. -/
theorem C5_stale_fetch_mutates :
    c5AfterRepoChange.workflowRuns = []
    ∧ c5AfterRepoChange.deploymentStatus = DeploymentStatus.IDLE
    ∧ c5Resolved.workflowRuns = [c5StaleRun]
    ∧ c5Resolved.deploymentStatus = DeploymentStatus.IN_PROGRESS
    ∧ ¬ c5Resolved = c5AfterRepoChange := by
  refine ⟨rfl, rfl, rfl, rfl, by decide⟩

/-- When the stored handle accounts for every live interval (the timer
invariant), clearing it leaves no live interval. -/
lemma cleanupPolling_activeIntervals (s : AppState)
    (hinv : s.activeIntervals = if s.timerRef = true then 1 else 0) :
    (cleanupPolling s).activeIntervals = 0 := by
  unfold cleanupPolling
  by_cases h : s.timerRef = true
  · rw [if_pos h]; rw [if_pos h] at hinv; simp [hinv]
  · rw [if_neg h]; rw [if_neg h] at hinv; exact hinv

lemma handleDeploy_selectionReady (i : DeployInput) (s : AppState) :
    (handleDeploy i s).1.selectionReady = s.selectionReady := by
  unfold handleDeploy handleDeployResume handleDeployStart
  split
  · rfl
  · (repeat' split) <;> simp [cleanupPolling_selectionReady]

/-- A *sequential* `handleDeploy` preserves the timer invariant: it first
clears any stored interval and registers at most one new one. -/
lemma handleDeploy_timerInv (i : DeployInput) (s : AppState)
    (hinv : s.activeIntervals = if s.timerRef = true then 1 else 0) :
    (handleDeploy i s).1.activeIntervals
      = if (handleDeploy i s).1.timerRef = true then 1 else 0 := by
  have h0 := cleanupPolling_activeIntervals s hinv
  have h1 := cleanupPolling_timerRef s
  unfold handleDeploy handleDeployResume handleDeployStart
  split
  · exact hinv
  · cases hr : i.runsResult with
    | error e => simp [h0, h1]
    | ok runs =>
      cases hd : i.dispatchResult with
      | error e => simp [h0, h1]
      | ok u => simp [h0, h1]

/-- The prefix leaves no stored handle: it cancelled whatever was stored
and has not registered the new interval yet. -/
lemma handleDeployStart_timerRef (s : AppState) :
    (handleDeployStart s).timerRef = false :=
  cleanupPolling_timerRef s

/-- Two back-to-back prefixes (the overlapped double-click) leave no live
interval when the original state satisfied the timer invariant: the first
prefix cancels any prior interval and the second finds nothing stored. -/
lemma handleDeployStart_twice_activeIntervals (s : AppState)
    (hinv : s.activeIntervals = if s.timerRef = true then 1 else 0) :
    (handleDeployStart (handleDeployStart s)).activeIntervals = 0 := by
  show (cleanupPolling (handleDeployStart s)).activeIntervals = 0
  unfold cleanupPolling
  rw [if_neg (by rw [handleDeployStart_timerRef]; exact Bool.false_ne_true)]
  exact cleanupPolling_activeIntervals s hinv

/-- When two sequential triggers do not overlap, the second ends with
exactly one live interval and one Dispatcher call (the content of the
original claim, valid only for this schedule). -/
lemma handleDeploy_seq_single_timer (s : AppState) (i1 i2 : DeployInput)
    (runs2 : List WorkflowRun)
    (hinv : s.activeIntervals = if s.timerRef = true then 1 else 0)
    (hready : s.selectionReady = true)
    (hruns2 : i2.runsResult = Except.ok runs2)
    (hdisp2 : i2.dispatchResult = Except.ok ()) :
    (handleDeploy i2 (handleDeploy i1 s).1).1.activeIntervals = 1
    ∧ (handleDeploy i2 (handleDeploy i1 s).1).1.timerRef = true
    ∧ (handleDeploy i2 (handleDeploy i1 s).1).2.dispatchCalls = 1 := by
  have hready1 : (handleDeploy i1 s).1.selectionReady = true := by
    rw [handleDeploy_selectionReady]; exact hready
  have hinv1 := handleDeploy_timerInv i1 s hinv
  have h0 := cleanupPolling_activeIntervals (handleDeploy i1 s).1 hinv1
  generalize hg : (handleDeploy i1 s).1 = s1 at hready1 h0 ⊢
  refine ⟨?_, ?_, ?_⟩ <;>
    simp [handleDeploy, handleDeployResume, handleDeployStart, hready1, hruns2, hdisp2, h0]

/-- A fresh idle state for the C6 scenario. -/
def c6Idle : AppState :=
  { deploymentStatus := DeploymentStatus.IDLE
    workflowRuns := []
    deploymentLogs := none
    liveDeploymentUrl := none
    lastKnownRunId := none
    error := none
    pollAttempts := 0
    timerRef := false
    activeIntervals := 0
    selectionReady := true }

/-- A trigger whose listing and dispatch both succeed. -/
def c6Input : DeployInput :=
  { runsResult := Except.ok [⟨100, RunStatus.completed, some Conclusion.success, "sha100"⟩]
    dispatchResult := Except.ok () }

/-- Two un-awaited triggers in immediate succession, as they interleave in
the single-threaded runtime: both synchronous prefixes run first (each
passes the guard and calls `cleanupPolling` while nothing is stored yet),
then each invocation's continuation resumes in turn. -/
def c6OverlapFirstResume : AppState × DeployEffects :=
  handleDeployResume c6Input (handleDeployStart (handleDeployStart c6Idle))

def c6OverlapSecondResume : AppState × DeployEffects :=
  handleDeployResume c6Input c6OverlapFirstResume.1

/-- C6 is false as stated: calling trigger twice in immediate (un-awaited)
succession leaves TWO live intervals, not one.  The second call's
`cleanupPolling` runs while `deploymentPollTimer.current` is still null —
the first invocation registers its interval only after its two awaits — so
nothing is cancelled; both continuations then register intervals and the
second overwrites the ref holding the first handle, leaking the first
interval. -/
theorem C6_counterexample :
    c6OverlapSecondResume.1.activeIntervals = 2
    ∧ ¬ c6OverlapSecondResume.1.activeIntervals = 1
    ∧ c6OverlapSecondResume.1.timerRef = true
    ∧ c6OverlapFirstResume.2.dispatchCalls = 1
    ∧ c6OverlapSecondResume.2.dispatchCalls = 1 :=
  ⟨rfl, by decide, rfl, rfl, rfl⟩

/-- C6 amended: each trigger invocation makes exactly one Dispatcher call,
but `cleanupPolling` at the start of a trigger cancels the prior session's
timer only if that session has already registered its interval (which
happens after its two awaits).  Called twice in immediate un-awaited
succession the second cleanup finds nothing stored, so after both
continuations resume two intervals are live and the ref holds only the
second handle — the first leaks.  Only when the second trigger begins
after the first invocation completed does it cancel the prior interval,
leaving exactly one active timer. -/
theorem C6_amended_double_trigger :
    (∀ (s : AppState) (i1 i2 : DeployInput) (runs1 runs2 : List WorkflowRun),
      s.activeIntervals = (if s.timerRef = true then 1 else 0) →
      s.selectionReady = true →
      i1.runsResult = Except.ok runs1 → i1.dispatchResult = Except.ok () →
      i2.runsResult = Except.ok runs2 → i2.dispatchResult = Except.ok () →
      (handleDeployResume i2
          (handleDeployResume i1 (handleDeployStart (handleDeployStart s))).1).1.activeIntervals
        = 2
      ∧ (handleDeployResume i2
          (handleDeployResume i1 (handleDeployStart (handleDeployStart s))).1).1.timerRef = true
      ∧ (handleDeployResume i1 (handleDeployStart (handleDeployStart s))).2.dispatchCalls = 1
      ∧ (handleDeployResume i2
          (handleDeployResume i1 (handleDeployStart (handleDeployStart s))).1).2.dispatchCalls
        = 1)
    ∧ (∀ (s : AppState) (i1 i2 : DeployInput) (runs2 : List WorkflowRun),
      s.activeIntervals = (if s.timerRef = true then 1 else 0) →
      s.selectionReady = true →
      i2.runsResult = Except.ok runs2 → i2.dispatchResult = Except.ok () →
      (handleDeploy i2 (handleDeploy i1 s).1).1.activeIntervals = 1
      ∧ (handleDeploy i2 (handleDeploy i1 s).1).1.timerRef = true
      ∧ (handleDeploy i2 (handleDeploy i1 s).1).2.dispatchCalls = 1) := by
  refine ⟨?_, ?_⟩
  · intro s i1 i2 runs1 runs2 hinv hready h1r h1d h2r h2d
    have hBB := handleDeployStart_twice_activeIntervals s hinv
    refine ⟨?_, ?_, ?_, ?_⟩ <;>
      simp [handleDeployResume, h1r, h1d, h2r, h2d, hBB]
  · intro s i1 i2 runs2 hinv hready h2r h2d
    exact handleDeploy_seq_single_timer s i1 i2 runs2 hinv hready h2r h2d

/-- Witness for C6's amended theorem: the overlapped and the sequential
double trigger from the fresh state. -/
theorem C6_witness :
    (c6OverlapSecondResume.1.activeIntervals = 2
      ∧ c6OverlapSecondResume.1.timerRef = true
      ∧ c6OverlapFirstResume.2.dispatchCalls = 1
      ∧ c6OverlapSecondResume.2.dispatchCalls = 1)
    ∧ ((handleDeploy c6Input (handleDeploy c6Input c6Idle).1).1.activeIntervals = 1
      ∧ (handleDeploy c6Input (handleDeploy c6Input c6Idle).1).1.timerRef = true
      ∧ (handleDeploy c6Input (handleDeploy c6Input c6Idle).1).2.dispatchCalls = 1) :=
  ⟨C6_amended_double_trigger.1 c6Idle c6Input c6Input _ _ (by decide) rfl rfl rfl rfl rfl,
   C6_amended_double_trigger.2 c6Idle c6Input c6Input _ (by decide) rfl rfl rfl⟩

/-- C7: on a poll tick whose relevant run is queued or in progress, a
failure of the job-list fetch or of the log fetch is swallowed by the inner
catch: the session is (still) IN_PROGRESS, the interval keeps running, the
tick's run-list fetch still counts, and a previously displayed non-empty
log snapshot is kept unchanged rather than cleared.  (The non-empty
hypothesis reflects JS falsiness: `setDeploymentLogs(prev => prev || d)`
would replace an empty-string snapshot by the placeholder.) -/
theorem C7_log_failure_keeps_session (s : AppState) (inp : PollInput)
    (runs : List WorkflowRun) (r : WorkflowRun) (p : String)
    (hready : s.selectionReady = true)
    (hst : ¬ s.deploymentStatus = DeploymentStatus.IDLE)
    (hat : s.pollAttempts < 60)
    (hruns : inp.runsResult = Except.ok runs)
    (hrel : relevantRun s.lastKnownRunId runs = some r)
    (hact : r.status = RunStatus.queued ∨ r.status = RunStatus.in_progress)
    (hfail : (∃ e, inp.jobsResult = Except.error e) ∨ (∃ e, inp.logsResult = Except.error e))
    (hprev : s.deploymentLogs = some p) (hp : ¬ p = "") :
    (pollDeploymentStatus inp s).1.deploymentStatus = DeploymentStatus.IN_PROGRESS
    ∧ (pollDeploymentStatus inp s).1.timerRef = s.timerRef
    ∧ (pollDeploymentStatus inp s).1.deploymentLogs = some p
    ∧ (pollDeploymentStatus inp s).2.runsFetches = 1 := by
  have h60 : ¬ (60 < s.pollAttempts + 1) := by omega
  have hip : r.status = RunStatus.in_progress ∨ r.status = RunStatus.queued := hact.symm
  have hkeep : jsOrOpt s.deploymentLogs "Waiting for build logs..." = some p := by
    rw [hprev]; simp [jsOrOpt, jsOrS, hp]
  have hkeep2 : jsOrOpt s.deploymentLogs "Workflow job is queued. Waiting for logs..."
      = some p := by
    rw [hprev]; simp [jsOrOpt, jsOrS, hp]
  cases hjr : inp.jobsResult with
  | error e =>
    refine ⟨?_, ?_, ?_, ?_⟩ <;>
      simp [pollDeploymentStatus, pollAfterRunsFetch, hready, hst, h60, hruns, hrel, hip,
        hjr, hkeep]
  | ok jobs =>
    have hlr : ∃ e, inp.logsResult = Except.error e := by
      rcases hfail with ⟨e, he⟩ | h
      · rw [hjr] at he; cases he
      · exact h
    obtain ⟨e, he⟩ := hlr
    cases hbj : buildJob jobs with
    | none =>
      refine ⟨?_, ?_, ?_, ?_⟩ <;>
        simp [pollDeploymentStatus, pollAfterRunsFetch, hready, hst, h60, hruns, hrel, hip,
          hjr, hbj, hkeep2]
    | some j =>
      refine ⟨?_, ?_, ?_, ?_⟩ <;>
        simp [pollDeploymentStatus, pollAfterRunsFetch, hready, hst, h60, hruns, hrel, hip,
          hjr, hbj, he, hkeep]

/-- The C7 scenario: an in-progress session with a previous log snapshot
whose tick sees the run still running but both job and log fetches fail. -/
def c7State : AppState :=
  { deploymentStatus := DeploymentStatus.IN_PROGRESS
    workflowRuns := []
    deploymentLogs := some "step 1 of 3 done"
    liveDeploymentUrl := none
    lastKnownRunId := some 100
    error := none
    pollAttempts := 7
    timerRef := true
    activeIntervals := 1
    selectionReady := true }

def c7Run : WorkflowRun := ⟨101, RunStatus.in_progress, none, "shaC7"⟩

def c7Input : PollInput :=
  { runsResult := Except.ok [c7Run]
    jobsResult := Except.error "HTTP 500"
    logsResult := Except.error "HTTP 500"
    resolverResult := none }

/-- Witness for C7 at the concrete scenario. -/
theorem C7_witness :
    (pollDeploymentStatus c7Input c7State).1.deploymentStatus = DeploymentStatus.IN_PROGRESS
    ∧ (pollDeploymentStatus c7Input c7State).1.timerRef = c7State.timerRef
    ∧ (pollDeploymentStatus c7Input c7State).1.deploymentLogs = some "step 1 of 3 done"
    ∧ (pollDeploymentStatus c7Input c7State).2.runsFetches = 1 :=
  C7_log_failure_keeps_session c7State c7Input [c7Run] c7Run "step 1 of 3 done"
    rfl (by decide) (by decide) rfl rfl (Or.inr rfl) (Or.inl ⟨"HTTP 500", rfl⟩) rfl (by decide)

/-- A 401 response whose body is not JSON, as the raw-log endpoint
returns. -/
def c8Resp401 : HttpResponse Unit :=
  { status := 401
    contentLengthZero := false
    json := Except.error "SyntaxError: Unexpected token"
    text := "" }

/-- A 500 response with a provider message. -/
def c8Resp500 : HttpResponse Unit :=
  { status := 500
    contentLengthZero := false
    json := Except.ok ⟨some "boom", ()⟩
    text := "" }

/-- An empty 204 response. -/
def c8Resp204 : HttpResponse Unit :=
  { status := 204
    contentLengthZero := false
    json := Except.error "no body"
    text := "" }

/-- C8 is false as stated for "every thin HTTP wrapper": `getJobLogs` does
not raise the distinguished unauthorized condition on a 401 — it raises its
status-only generic message. -/
theorem C8_counterexample :
    getJobLogs c8Resp401 = Except.error "Failed to fetch logs with status 401"
    ∧ ¬ getJobLogs c8Resp401 = Except.error "Unauthorized: Invalid GitHub token." := by
  refine ⟨rfl, ?_⟩
  intro h
  rw [show getJobLogs c8Resp401 = Except.error "Failed to fetch logs with status 401" from rfl]
    at h
  injection h with h2
  exact absurd h2 (by decide)

/-- C8 amended: the wrappers routed through `handleResponse` (user, repos,
branches, tree, file content, runs, jobs, fork) satisfy the claimed
contract — distinguished unauthorized on 401, generic message-carrying
failure on any other non-2xx whose error body parses, null on 204 or an
empty body.  The two bespoke wrappers do not: `getJobLogs` raises a
status-only generic failure on every non-2xx (including 401) and returns
the raw text body (never null) on success, and `triggerDeployment` raises a
generic failure carrying the provider message or a workflow-setup hint on
every non-2xx (including 401). -/
theorem C8_amended_wrappers :
    (∀ (α : Type) (r : HttpResponse α), r.status = 401 →
       handleResponse r = Except.error "Unauthorized: Invalid GitHub token.")
    ∧ (∀ (α : Type) (r : HttpResponse α) (b : JsonBody α),
        responseOk r = false → ¬ r.status = 401 → r.json = Except.ok b →
        handleResponse r
          = Except.error
              (jsOrS b.message ("API request failed with status " ++ toString r.status)))
    ∧ (∀ (α : Type) (r : HttpResponse α),
        responseOk r = true → (r.contentLengthZero = true ∨ r.status = 204) →
        handleResponse r = Except.ok none)
    ∧ (∀ r : HttpResponse Unit, responseOk r = false →
        getJobLogs r = Except.error ("Failed to fetch logs with status " ++ toString r.status))
    ∧ (∀ r : HttpResponse Unit, responseOk r = true → getJobLogs r = Except.ok r.text)
    ∧ (∀ r : HttpResponse Unit, responseOk r = false →
        triggerDeployment r
          = Except.error
              (jsOrS (match r.json with
                      | Except.ok b => b.message
                      | Except.error _ => none) triggerFallbackMessage)) := by
  refine ⟨?_, ?_, ?_, ?_, ?_, ?_⟩
  · intro α r h
    have hok : responseOk r = false := by simp [responseOk, h]
    simp [handleResponse, hok, h]
  · intro α r b hok h401 hj
    simp [handleResponse, hok, h401, hj]
  · intro α r hok hcl
    simp [handleResponse, hok, hcl]
  · intro r hok
    simp [getJobLogs, hok]
  · intro r hok
    simp [getJobLogs, hok]
  · intro r hok
    simp [triggerDeployment, hok]

/-- Witness for C8's amended theorem at concrete responses. -/
theorem C8_witness :
    handleResponse c8Resp401 = Except.error "Unauthorized: Invalid GitHub token."
    ∧ handleResponse c8Resp500
        = Except.error
            (jsOrS (some "boom") ("API request failed with status " ++ toString c8Resp500.status))
    ∧ handleResponse c8Resp204 = Except.ok none
    ∧ getJobLogs c8Resp401
        = Except.error ("Failed to fetch logs with status " ++ toString c8Resp401.status)
    ∧ getJobLogs c8Resp204 = Except.ok c8Resp204.text
    ∧ triggerDeployment c8Resp401
        = Except.error
            (jsOrS (match c8Resp401.json with
                    | Except.ok b => b.message
                    | Except.error _ => none) triggerFallbackMessage) :=
  ⟨C8_amended_wrappers.1 Unit c8Resp401 rfl,
   C8_amended_wrappers.2.1 Unit c8Resp500 ⟨some "boom", ()⟩ rfl (by decide) rfl,
   C8_amended_wrappers.2.2.1 Unit c8Resp204 rfl (Or.inr rfl),
   C8_amended_wrappers.2.2.2.1 c8Resp401 rfl,
   C8_amended_wrappers.2.2.2.2.1 c8Resp204 rfl,
   C8_amended_wrappers.2.2.2.2.2 c8Resp401 rfl⟩

lemma mem_insertDesc (d x : GithubDeployment) (l : List GithubDeployment) :
    x ∈ insertDesc d l ↔ x = d ∨ x ∈ l := by
  induction l with
  | nil => simp [insertDesc]
  | cons a t ih =>
    simp only [insertDesc]
    split
    · simp [List.mem_cons]
    · simp [List.mem_cons, ih]
      tauto

/-- The head of a list bounds every element of its tail (by creation
time). -/
def headMax : List GithubDeployment → Prop
  | [] => True
  | d :: t => ∀ x ∈ t, x.created_at ≤ d.created_at

lemma headMax_insertDesc (d : GithubDeployment) (l : List GithubDeployment)
    (h : headMax l) : headMax (insertDesc d l) := by
  cases l with
  | nil => simp [insertDesc, headMax]
  | cons a t =>
    simp only [insertDesc]
    split
    · intro x hx
      rcases List.mem_cons.mp hx with rfl | hx2
      · omega
      · have := h x hx2
        omega
    · intro x hx
      rcases (mem_insertDesc d x t).mp hx with rfl | hx2
      · omega
      · exact h x hx2

lemma mem_foldl_insertDesc (l acc : List GithubDeployment) (x : GithubDeployment) :
    x ∈ List.foldl (fun acc d => insertDesc d acc) acc l ↔ x ∈ acc ∨ x ∈ l := by
  induction l generalizing acc with
  | nil => simp
  | cons a t ih =>
    simp only [List.foldl, ih, mem_insertDesc, List.mem_cons]
    tauto

lemma headMax_foldl (l acc : List GithubDeployment) (h : headMax acc) :
    headMax (List.foldl (fun acc d => insertDesc d acc) acc l) := by
  induction l generalizing acc with
  | nil => exact h
  | cons a t ih => exact ih _ (headMax_insertDesc a acc h)

lemma sortByCreatedDesc_mem (l : List GithubDeployment) (x : GithubDeployment) :
    x ∈ sortByCreatedDesc l ↔ x ∈ l := by
  simp [sortByCreatedDesc, mem_foldl_insertDesc]

lemma sortByCreatedDesc_headMax (l : List GithubDeployment) :
    headMax (sortByCreatedDesc l) :=
  headMax_foldl l [] trivial

/-- C9: when both lookups return 200 with parsed bodies, the resolver
inspects the status history of the most recently created deployment for
the commit (the head of the stable descending sort, whose creation time
bounds every listed deployment) and returns the environment URL of the
first status with state "success" (null when there is none or the URL is
absent); and a null or empty deployments listing yields null, not an
error. -/
theorem C9_resolver :
    (∀ (env : ResolverEnv) (ds tl : List GithubDeployment) (d0 : GithubDeployment)
        (sts : List GithubDeploymentStatus),
      env.depResp.status = 200 →
      handleResponse env.depResp = Except.ok (some ds) →
      sortByCreatedDesc ds = d0 :: tl →
      (env.stResp d0).status = 200 →
      handleResponse (env.stResp d0) = Except.ok (some sts) →
      getLatestSuccessDeploymentUrl env
        = ((sts.find? (fun st => st.state == "success")).bind
            (fun st => jsUrlOrNull st.environment_url))
      ∧ d0 ∈ ds ∧ ∀ x ∈ ds, x.created_at ≤ d0.created_at)
    ∧ (∀ env : ResolverEnv, env.depResp.status = 200 →
        handleResponse env.depResp = Except.ok none →
        getLatestSuccessDeploymentUrl env = none)
    ∧ (∀ env : ResolverEnv, env.depResp.status = 200 →
        handleResponse env.depResp = Except.ok (some []) →
        getLatestSuccessDeploymentUrl env = none) := by
  refine ⟨?_, ?_, ?_⟩
  · intro env ds tl d0 sts h200 hdep hsort h200b hsts
    have hmem : d0 ∈ ds :=
      (sortByCreatedDesc_mem ds d0).mp (hsort ▸ List.mem_cons_self d0 tl)
    have hnil : ¬ ds = [] := by
      intro h
      rw [h] at hmem
      cases hmem
    have hne : ¬ ds.length = 0 := by
      simpa [List.length_eq_zero] using hnil
    refine ⟨?_, hmem, ?_⟩
    · cases hf : sts.find? (fun st => st.state == "success") with
      | none =>
        simp [getLatestSuccessDeploymentUrl, resolverTry, h200, hdep, hne, hsort, h200b,
          hsts, hf]
      | some st =>
        simp [getLatestSuccessDeploymentUrl, resolverTry, h200, hdep, hne, hsort, h200b,
          hsts, hf]
    · intro x hx
      have hm := sortByCreatedDesc_headMax ds
      rw [hsort] at hm
      have hx2 : x ∈ d0 :: tl := hsort ▸ (sortByCreatedDesc_mem ds x).mpr hx
      rcases List.mem_cons.mp hx2 with rfl | h2
      · exact Nat.le_refl _
      · exact hm x h2
  · intro env h200 hdep
    simp [getLatestSuccessDeploymentUrl, resolverTry, h200, hdep]
  · intro env h200 hdep
    simp [getLatestSuccessDeploymentUrl, resolverTry, h200, hdep]

def c9Dep1 : GithubDeployment := ⟨1, 100⟩

def c9Dep2 : GithubDeployment := ⟨2, 200⟩

def c9Statuses : List GithubDeploymentStatus :=
  [⟨"failure", none⟩, ⟨"success", some "https://example.github.io/app/"⟩]

/-- A concrete environment: two deployments for the commit (the second
created later), statuses carrying one failure then one success with a
URL. -/
def c9Env : ResolverEnv :=
  { depResp :=
      { status := 200, contentLengthZero := false
        json := Except.ok ⟨none, [c9Dep1, c9Dep2]⟩, text := "" }
    stResp := fun _ =>
      { status := 200, contentLengthZero := false
        json := Except.ok ⟨none, c9Statuses⟩, text := "" } }

/-- Witness for C9 at the concrete environment. -/
theorem C9_witness :
    (getLatestSuccessDeploymentUrl c9Env
      = ((c9Statuses.find? (fun st => st.state == "success")).bind
          (fun st => jsUrlOrNull st.environment_url))
    ∧ c9Dep2 ∈ [c9Dep1, c9Dep2]
    ∧ ∀ x ∈ [c9Dep1, c9Dep2], x.created_at ≤ c9Dep2.created_at) :=
  C9_resolver.1 c9Env [c9Dep1, c9Dep2] [c9Dep1] c9Dep2 c9Statuses rfl rfl rfl rfl rfl

/-- C10: `getLatestSuccessDeploymentUrl` is total over every outcome of its
underlying calls: a non-200 deployments response (401 included) yields
null before anything else runs, any exception thrown inside the try block
is swallowed by the catch-all into null, and a normally computed value is
returned as is — the caller never sees an error. -/
theorem C10_resolver_total (env : ResolverEnv) :
    (¬ env.depResp.status = 200 → getLatestSuccessDeploymentUrl env = none)
    ∧ (∀ e, resolverTry env = Except.error e → getLatestSuccessDeploymentUrl env = none)
    ∧ (∀ v, resolverTry env = Except.ok v → getLatestSuccessDeploymentUrl env = v) := by
  refine ⟨?_, ?_, ?_⟩
  · intro h
    simp [getLatestSuccessDeploymentUrl, resolverTry, h]
  · intro e h
    simp [getLatestSuccessDeploymentUrl, h]
  · intro v h
    simp [getLatestSuccessDeploymentUrl, h]

/-- A 401-everywhere environment. -/
def c10Env : ResolverEnv :=
  { depResp :=
      { status := 401, contentLengthZero := false, json := Except.error "opaque", text := "" }
    stResp := fun _ =>
      { status := 401, contentLengthZero := false, json := Except.error "opaque", text := "" } }

/-- Witness for C10: a 401 Unauthorized deployments response yields null,
not an error. -/
theorem C10_witness : getLatestSuccessDeploymentUrl c10Env = none :=
  (C10_resolver_total c10Env).1 (by decide)

end EdgeDeploy
